import Mathlib

/-!
Shallow embedding of the Stream Resolution & Lazy Redirect Proxy subsystem
(`ytmpd/stream_resolver.py` and `ytmpd/icy_proxy.py`).

Time instants are modelled as integers (Unix seconds): `datetime` /
`timedelta` comparisons of the source are exact arithmetic, and on
whole-second instants they coincide with the integer comparisons used
here.  The one place the source divides (`_is_url_expired` computes
`age_seconds / 3600` in float), the embedding states the division form
over `ℚ` as well and proves it equal to the integer form
(`is_url_expired_eq_div`).  Python dictionaries are modelled as
association lists whose update operation keeps keys unique.  The external
resolution primitive (yt-dlp) and the sqlite-backed metadata store enter
the definitions as explicit oracle parameters / explicit state, so every
definition is a pure function of what it reads.
-/

namespace Ytmpd

/-! ## Association-list dictionaries (Python `dict` semantics) -/

/-- Python `d[k] = v`: overwrite the binding for `k`, keeping keys unique. -/
def dictInsert {α : Type} (d : List (String × α)) (k : String) (v : α) :
    List (String × α) :=
  (k, v) :: d.filter (fun p => !(p.1 == k))

/-- Python `del d[k]`: remove the binding for `k`. -/
def dictErase {α : Type} (d : List (String × α)) (k : String) :
    List (String × α) :=
  d.filter (fun p => !(p.1 == k))

/-! ## `stream_resolver.py` : `CachedURL` and `StreamResolver` -/

/-- Dataclass `CachedURL`: a cached stream URL with its cache timestamp
(Unix seconds) and the video id it belongs to. -/
structure CachedURL where
  url : String
  cached_at : Int
  video_id : String
deriving DecidableEq

/-- The mutable state of a `StreamResolver` instance that the claims touch:
the in-memory cache `_cache` and the configured `_cache_hours`.
(The persistent-snapshot file is an I/O mirror of `_cache` and is not
needed by any claim.) -/
structure StreamResolver where
  cache : List (String × CachedURL)
  cache_hours : Int
deriving DecidableEq

/-- Value of `timedelta(hours=self._cache_hours)` expressed in seconds. -/
def StreamResolver.maxAge (r : StreamResolver) : Int := r.cache_hours * 3600

/-- Method `StreamResolver._is_cache_valid`:
returns the validity verdict together with the cache as mutated by the
call (the method deletes an expired entry as a side effect).
`age > max_age` — strictly greater — is the expiry test of the source. -/
def is_cache_valid (r : StreamResolver) (now : Int) (video_id : String) :
    Bool × List (String × CachedURL) :=
  match r.cache.lookup video_id with
  | none => (false, r.cache)
  | some cached =>
    let age := now - cached.cached_at
    if age > r.maxAge then
      (false, dictErase r.cache video_id)
    else
      (true, r.cache)

/-- The outcome of one `resolve_video_id` call: the returned URL (if any),
the cache state after the call, and whether the external resolution
primitive (`_extract_url`, i.e. yt-dlp) was invoked. -/
structure ResolveResult where
  url : Option String
  cache : List (String × CachedURL)
  externalCalled : Bool
deriving DecidableEq

/-- Method `StreamResolver.resolve_video_id`, with the external extraction step
abstracted as the oracle `extract : String → Option String` (`none`
meaning extraction failed). On a cache hit the cached URL is returned
with no external call; otherwise `_extract_url` runs and a success is
written back into the cache with `cached_at := now`. -/
def resolve_video_id (extract : String → Option String)
    (r : StreamResolver) (now : Int) (video_id : String) : ResolveResult :=
  let checked := is_cache_valid r now video_id
  if checked.1 then
    match checked.2.lookup video_id with
    | some cached => ⟨some cached.url, checked.2, false⟩
    | none => ⟨none, checked.2, false⟩
  else
    match extract video_id with
    | some url =>
        ⟨some url, dictInsert checked.2 video_id ⟨url, now, video_id⟩, true⟩
    | none => ⟨none, checked.2, true⟩

/-! ## Dictionary lemmas -/

theorem lookup_cons_self {α : Type} (p : String × α) (d : List (String × α)) :
    ((p :: d).lookup p.1) = some p.2 := by
  cases p with
  | mk k v => simp [List.lookup]

theorem lookup_cons_of_ne {α : Type} (p : String × α) (d : List (String × α))
    (k : String) (h : k ≠ p.1) :
    ((p :: d).lookup k) = d.lookup k := by
  cases p with
  | mk k' v => simp [List.lookup, beq_eq_false_iff_ne.mpr h]

theorem lookup_dictErase {α : Type} (d : List (String × α)) (k : String) :
    (dictErase d k).lookup k = none := by
  induction d with
  | nil => rfl
  | cons p rest ih =>
    unfold dictErase at ih ⊢
    by_cases hp : p.1 = k
    · simpa [List.filter, hp] using ih
    · simp only [List.filter, beq_eq_false_iff_ne.mpr hp, Bool.not_false]
      rw [lookup_cons_of_ne _ _ _ (Ne.symm hp), ih]

theorem lookup_dictInsert_self {α : Type} (d : List (String × α))
    (k : String) (v : α) : (dictInsert d k v).lookup k = some v := by
  simp [dictInsert, List.lookup]

theorem lookup_dictInsert_ne {α : Type} (d : List (String × α))
    (k k' : String) (v : α) (h : k' ≠ k) :
    (dictInsert d k v).lookup k' = d.lookup k' := by
  unfold dictInsert
  rw [lookup_cons_of_ne _ _ _ h]
  induction d with
  | nil => rfl
  | cons p rest ih =>
    by_cases hp : p.1 = k
    · simp only [List.filter, beq_iff_eq.mpr hp, Bool.not_true]
      rw [ih, lookup_cons_of_ne _ _ _ (by simpa [hp] using h)]
    · simp only [List.filter, beq_eq_false_iff_ne.mpr hp, Bool.not_false]
      by_cases hk' : k' = p.1
      · rw [hk', lookup_cons_self, lookup_cons_self]
      · rw [lookup_cons_of_ne _ _ _ hk', lookup_cons_of_ne _ _ _ hk', ih]

/-! ## Claims about `resolve_video_id` and its TTL cache -/

/-- C1 (counterexample): the claim's strict-inequality TTL test is wrong.
With `cache_hours = 1` and an entry cached at time `0`, a resolve at time
`3600` — age exactly equal to the TTL — does **not** invoke the external
primitive (the source expires only on `age > max_age`), yet
`now - resolvedAt < TTL` is false, so the claim's "in every other case the
external primitive is invoked" fails at this input. -/
theorem resolve_ttl_boundary_counterexample :
    ((resolve_video_id (fun _ => none)
        ⟨[("aaaaaaaaaaa", ⟨"u", 0, "aaaaaaaaaaa"⟩)], 1⟩ 3600
        "aaaaaaaaaaa").externalCalled = false) ∧
    ¬ ((3600 : Int) - 0 <
        StreamResolver.maxAge ⟨[("aaaaaaaaaaa", ⟨"u", 0, "aaaaaaaaaaa"⟩)], 1⟩) := by
  decide

/-- C1 (amended): `resolve_video_id` returns without invoking the external
resolution primitive iff a cache entry for the identifier exists whose age
satisfies `now - resolvedAt ≤ TTL` (non-strict: an entry whose age equals
the TTL exactly is still served from cache); in that case the cached URL is
returned, and in every other case the external primitive is invoked. -/
theorem resolve_external_iff (extract : String → Option String)
    (r : StreamResolver) (now : Int) (vid : String) :
    ((resolve_video_id extract r now vid).externalCalled = false ↔
      ∃ c, r.cache.lookup vid = some c ∧ now - c.cached_at ≤ r.maxAge) ∧
    (∀ c, r.cache.lookup vid = some c → now - c.cached_at ≤ r.maxAge →
      (resolve_video_id extract r now vid).url = some c.url) := by
  unfold resolve_video_id is_cache_valid
  cases h : r.cache.lookup vid with
  | none =>
    cases hx : extract vid <;> simp [h, hx]
  | some c =>
    by_cases hage : now - c.cached_at > r.maxAge
    · cases hx : extract vid <;> simp [h, hx, hage, not_le.mpr hage]
      · omega
      · exact ⟨by omega, fun hle => absurd hle (by omega)⟩
    · simp [h, hage, not_lt.mp hage]
      omega

/-- Witness for the amended C1 theorem at a concrete cache hit. -/
theorem resolve_external_iff_witness :
    (resolve_video_id (fun _ => some ("w"))
      ⟨[("aaaaaaaaaaa", ⟨"u", 0, "aaaaaaaaaaa"⟩)], 1⟩ 100
      "aaaaaaaaaaa").url = some ("u") :=
  (resolve_external_iff (fun _ => some ("w"))
      ⟨[("aaaaaaaaaaa", ⟨"u", 0, "aaaaaaaaaaa"⟩)], 1⟩ 100
      "aaaaaaaaaaa").2 ⟨"u", 0, "aaaaaaaaaaa"⟩ (by decide) (by decide)

/-- C7: a failed resolution is never cached — after a `resolve_video_id`
call that invoked the external primitive and obtained no URL, the cache
holds no entry for the identifier, and a subsequent `resolve_video_id`
call for the same identifier (any later time, any extraction outcome)
invokes the external primitive again from scratch. -/
theorem resolve_miss_calls_external (extract : String → Option String)
    (r : StreamResolver) (now : Int) (vid : String)
    (h : r.cache.lookup vid = none) :
    (resolve_video_id extract r now vid).externalCalled = true := by
  unfold resolve_video_id is_cache_valid
  simp only [h]
  cases hx : extract vid <;> simp [hx]

theorem failed_resolution_never_cached
    (extract extract2 : String → Option String) (r : StreamResolver)
    (now now2 : Int) (vid : String)
    (h1 : (resolve_video_id extract r now vid).externalCalled = true)
    (h2 : (resolve_video_id extract r now vid).url = none) :
    (resolve_video_id extract r now vid).cache.lookup vid = none ∧
    (resolve_video_id extract2
      ⟨(resolve_video_id extract r now vid).cache, r.cache_hours⟩
      now2 vid).externalCalled = true := by
  have hmiss : (resolve_video_id extract r now vid).cache.lookup vid = none := by
    unfold resolve_video_id is_cache_valid at h1 h2 ⊢
    cases h : r.cache.lookup vid with
    | none =>
      simp only [h] at h1 h2 ⊢
      cases hx : extract vid with
      | some u => simp [hx] at h1 h2
      | none => simpa [hx] using h
    | some c =>
      by_cases hage : now - c.cached_at > r.maxAge
      · simp only [h, hage, if_pos, if_neg] at h1 h2 ⊢
        cases hx : extract vid with
        | some u => simp [hx, hage] at h1 h2
        | none => simpa [hx, hage] using lookup_dictErase r.cache vid
      · simp [h, hage] at h1
  exact ⟨hmiss,
    resolve_miss_calls_external extract2
      ⟨(resolve_video_id extract r now vid).cache, r.cache_hours⟩ now2 vid hmiss⟩

/-- Witness for C7 on an empty cache with a failing extraction. -/
theorem failed_resolution_never_cached_witness :
    (resolve_video_id (fun _ => none) ⟨[], 5⟩ 0 "aaaaaaaaaaa").cache.lookup
        "aaaaaaaaaaa" = none ∧
    (resolve_video_id (fun _ => none)
      ⟨(resolve_video_id (fun _ => none) ⟨[], 5⟩ 0 "aaaaaaaaaaa").cache, 5⟩
      7 "aaaaaaaaaaa").externalCalled = true :=
  failed_resolution_never_cached (fun _ => none) (fun _ => none) ⟨[], 5⟩ 0 7
    "aaaaaaaaaaa" (by decide) (by decide)

/-- C10: an expired cache entry is deleted during the validity check
itself, so when the subsequent external resolution fails, the resolve call
returns no URL and the resolver's cache retains no entry for that
identifier — the stale URL is not kept as a fallback in the resolver. -/
theorem expired_entry_purged_no_stale_fallback
    (extract : String → Option String) (r : StreamResolver) (now : Int)
    (vid : String) (c : CachedURL)
    (hc : r.cache.lookup vid = some c)
    (hexp : now - c.cached_at > r.maxAge)
    (hfail : extract vid = none) :
    is_cache_valid r now vid = (false, dictErase r.cache vid) ∧
    (dictErase r.cache vid).lookup vid = none ∧
    (resolve_video_id extract r now vid).url = none ∧
    (resolve_video_id extract r now vid).cache.lookup vid = none := by
  have hvalid : is_cache_valid r now vid = (false, dictErase r.cache vid) := by
    unfold is_cache_valid
    simp [hc, hexp]
  refine ⟨hvalid, lookup_dictErase r.cache vid, ?_, ?_⟩ <;>
    simp [resolve_video_id, hvalid, hfail, lookup_dictErase]

/-- Witness for C10 with a one-entry cache expired by one second. -/
theorem expired_entry_purged_no_stale_fallback_witness :
    (resolve_video_id (fun _ => none)
      ⟨[("aaaaaaaaaaa", ⟨"u", 0, "aaaaaaaaaaa"⟩)], 1⟩ 3601
      "aaaaaaaaaaa").url = none ∧
    (resolve_video_id (fun _ => none)
      ⟨[("aaaaaaaaaaa", ⟨"u", 0, "aaaaaaaaaaa"⟩)], 1⟩ 3601
      "aaaaaaaaaaa").cache.lookup "aaaaaaaaaaa" = none := by
  have h := expired_entry_purged_no_stale_fallback (fun _ => none)
    ⟨[("aaaaaaaaaaa", ⟨"u", 0, "aaaaaaaaaaa"⟩)], 1⟩ 3601 "aaaaaaaaaaa"
    ⟨"u", 0, "aaaaaaaaaaa"⟩ (by decide) (by decide) (by decide)
  exact ⟨h.2.2.1, h.2.2.2⟩

/-! ## `StreamResolver._extract_url`: failure classification and retry -/

/-- Outcome of one yt-dlp `extract_info` attempt, as the source
distinguishes them: a URL, a response with no info, a response whose info
carries no URL, a `DownloadError`, an `ExtractorError`, or any other
exception (with its message). -/
inductive ExtractOutcome where
  | success (url : String)
  | noInfo
  | noUrl
  | downloadError (msg : String)
  | extractorError (msg : String)
  | otherError (msg : String)
deriving DecidableEq

/-- Test whether `needle` starts the list `hay`. -/
def charsStartWith : List Char → List Char → Bool
  | [], _ => true
  | _ :: _, [] => false
  | a :: as, b :: bs => a == b && charsStartWith as bs

/-- Test whether `needle` occurs contiguously inside `hay`. -/
def charsContain (needle : List Char) : List Char → Bool
  | [] => needle.isEmpty
  | c :: rest => charsStartWith needle (c :: rest) || charsContain needle rest

/-- Python `sub in s` on strings. -/
def strContains (s sub : String) : Bool := charsContain sub.data s.data

/-- Python `s.lower()` (the source only matches ASCII keywords). -/
def strLower (s : String) : String := String.mk (s.data.map Char.toLower)

/-- Transience test of the source's generic handler:
`'network' in str(e).lower() or 'timeout' in str(e).lower()`. -/
def isNetworkErrorMsg (msg : String) : Bool :=
  strContains (strLower msg) ("network") || strContains (strLower msg) ("timeout")

/-- Classification used by the claims: an attempt outcome is transient
iff it is a generic (non-`DownloadError`, non-`ExtractorError`) exception
whose message matches the network/timeout test. -/
def isTransientFailure : ExtractOutcome → Bool
  | .otherError msg => isNetworkErrorMsg msg
  | _ => false

/-- Observable trace of one `_extract_url` call: the returned URL (if
any), how many times the external primitive (`extract_info`) ran, and the
`time.sleep` delays (seconds) performed between attempts. -/
structure ExtractTrace where
  url : Option String
  attempts : Nat
  sleeps : List Nat
deriving DecidableEq

/-- Method `StreamResolver._extract_url` over the outcomes of the first
and (when reached) second `extract_info` attempt.  `DownloadError`s and
`ExtractorError`s return `None` without retry; a generic exception whose
message contains `network` or `timeout` sleeps one second and retries
exactly once, the retry returning a URL only when the second attempt
succeeds; any other generic exception returns `None` without retry. -/
def extract_url (attempt1 attempt2 : ExtractOutcome) : ExtractTrace :=
  match attempt1 with
  | .success url => ⟨some url, 1, []⟩
  | .noInfo => ⟨none, 1, []⟩
  | .noUrl => ⟨none, 1, []⟩
  | .downloadError _ => ⟨none, 1, []⟩
  | .extractorError _ => ⟨none, 1, []⟩
  | .otherError msg =>
    if isNetworkErrorMsg msg then
      match attempt2 with
      | .success url => ⟨some url, 2, [1]⟩
      | _ => ⟨none, 2, [1]⟩
    else ⟨none, 1, []⟩

/-- C8: a transient (network/timeout class) failure of the first external
attempt is retried exactly once after a fixed 1-second delay within the
same `_extract_url` call, and every non-transient first attempt — success,
unavailable (`DownloadError`), or unknown (`ExtractorError` / other) —
performs exactly one external attempt with no delay. -/
theorem extract_url_retry_policy (a1 a2 : ExtractOutcome) :
    (extract_url a1 a2).attempts = (if isTransientFailure a1 then 2 else 1) ∧
    (extract_url a1 a2).sleeps = (if isTransientFailure a1 then [1] else []) := by
  cases a1 with
  | otherError msg =>
    by_cases hm : isNetworkErrorMsg msg <;>
      cases a2 <;> simp [extract_url, isTransientFailure, hm]
  | success url => simp [extract_url, isTransientFailure]
  | noInfo => simp [extract_url, isTransientFailure]
  | noUrl => simp [extract_url, isTransientFailure]
  | downloadError msg => simp [extract_url, isTransientFailure]
  | extractorError msg => simp [extract_url, isTransientFailure]

/-! ## `StreamResolver.resolve_batch` -/

/-- Processing of one completed future in the collection loop of
`resolve_batch`: a successful resolution is recorded in the results
dictionary, a failed one (or an exception) is only logged. -/
def batchStep (resolveOne : String → Option String)
    (acc : List (String × String)) (vid : String) : List (String × String) :=
  match resolveOne vid with
  | some url => dictInsert acc vid url
  | none => acc

/-- Method `StreamResolver.resolve_batch` with `resolve_video_id`
abstracted as the deterministic oracle `resolveOne` and the cancellation
predicate `should_stop` constantly false (the run the claim describes):
an empty input returns `{}` before the pool is created; otherwise every
identifier is submitted once and each completion is collected by
`batchStep`.  The result dictionary is insensitive to completion order
because `resolveOne` is a function of the identifier alone. -/
def resolve_batch (resolveOne : String → Option String)
    (video_ids : List String) : List (String × String) :=
  if video_ids.isEmpty then []
  else video_ids.foldl (batchStep resolveOne) []

/-- Number of worker threads the pool is created with:
none at all for an empty input (the early return precedes the pool),
otherwise `max_workers = min(10, len(video_ids))`. -/
def batch_workers (video_ids : List String) : Nat :=
  if video_ids.isEmpty then 0 else min 10 video_ids.length

theorem batchStep_lookup_ne (f : String → Option String)
    (acc : List (String × String)) (v vid : String) (h : vid ≠ v) :
    (batchStep f acc v).lookup vid = acc.lookup vid := by
  unfold batchStep
  cases f v with
  | some u => exact lookup_dictInsert_ne acc v vid u h
  | none => rfl

theorem foldl_batchStep_lookup (f : String → Option String) (vid : String) :
    ∀ (ids : List String) (acc : List (String × String)),
      (ids.foldl (batchStep f) acc).lookup vid =
        if vid ∈ ids then
          (if (f vid).isSome then f vid else acc.lookup vid)
        else acc.lookup vid := by
  intro ids
  induction ids with
  | nil => intro acc; simp
  | cons v rest ih =>
    intro acc
    rw [List.foldl_cons, ih]
    by_cases hmem : vid ∈ rest
    · simp only [hmem, List.mem_cons, or_true, if_true]
      cases hf : f vid with
      | some u => simp
      | none =>
        simp only [hf, Option.isSome_none, Bool.false_eq_true, if_false]
        by_cases hv : vid = v
        · subst hv; simp [batchStep, hf]
        · rw [batchStep_lookup_ne f acc v vid hv]
    · by_cases hv : vid = v
      · subst hv
        simp only [List.mem_cons, true_or, if_true, hmem, if_false]
        cases hf : f vid with
        | some u => simp [batchStep, hf, lookup_dictInsert_self]
        | none => simp [batchStep, hf]
      · have : vid ∉ v :: rest := by simp [hv, hmem]
        simp only [this, if_false, hmem]
        rw [batchStep_lookup_ne f acc v vid hv]

theorem foldl_batchStep_length (f : String → Option String) :
    ∀ (ids : List String) (acc : List (String × String)),
      ids.Nodup → (∀ p ∈ acc, p.1 ∉ ids) →
      (ids.foldl (batchStep f) acc).length =
        acc.length + ids.countP (fun v => (f v).isSome) := by
  intro ids
  induction ids with
  | nil => intro acc _ _; simp
  | cons v rest ih =>
    intro acc hnd hacc
    rw [List.foldl_cons]
    have hndr : rest.Nodup := (List.nodup_cons.mp hnd).2
    have hvr : v ∉ rest := (List.nodup_cons.mp hnd).1
    cases hf : f v with
    | none =>
      have hacc' : ∀ p ∈ acc, p.1 ∉ rest := fun p hp =>
        fun hmem => hacc p hp (List.mem_cons_of_mem v hmem)
      rw [show batchStep f acc v = acc by simp [batchStep, hf]]
      rw [ih acc hndr hacc', List.countP_cons]
      simp [hf]
    | some u =>
      have hfilter : acc.filter (fun p => !(p.1 == v)) = acc := by
        apply List.filter_eq_self.mpr
        intro p hp
        simp only [Bool.not_eq_eq_eq_not, Bool.not_true, beq_eq_false_iff_ne]
        exact fun hv => hacc p hp (hv ▸ List.mem_cons_self v rest)
      have hstep : batchStep f acc v = (v, u) :: acc := by
        simp [batchStep, hf, dictInsert, hfilter]
      rw [hstep]
      have hacc' : ∀ p ∈ (v, u) :: acc, p.1 ∉ rest := by
        intro p hp
        rcases List.mem_cons.mp hp with h | h
        · subst h; exact hvr
        · exact fun hmem => hacc p h (List.mem_cons_of_mem v hmem)
      rw [ih ((v, u) :: acc) hndr hacc', List.countP_cons]
      simp [hf]
      omega

theorem countP_isSome_add_filter_isNone (f : String → Option String) :
    ∀ ids : List String,
      ids.countP (fun v => (f v).isSome) +
        (ids.filter (fun v => (f v).isNone)).length = ids.length := by
  intro ids
  induction ids with
  | nil => simp
  | cons v rest ih =>
    rw [List.countP_cons]
    cases hf : f v with
    | some u => simp [List.filter, hf]; omega
    | none => simp [List.filter, hf]; omega

/-- C5 (counterexample): the entry-count claim fails on input lists with
repeated identifiers.  For `ids = ["a", "a"]` with every resolution
succeeding, no identifier is unresolvable (`k = 0`) yet the result
dictionary has `1` entry, not `len(ids) - k = 2`: the two submissions
share the dictionary key. -/
theorem resolve_batch_duplicate_count_counterexample :
    ((["a", "a"] : List String).filter
        (fun v => ((fun _ : String => some ("u")) v).isNone)).length = 0 ∧
    (resolve_batch (fun _ : String => some ("u")) ["a", "a"]).length = 1 ∧
    (["a", "a"] : List String).length - 0 = 2 := by
  decide

/-- C5 (amended): `resolve_batch` looks up to exactly the successful
resolutions — an identifier is a key iff it is in the input and resolved,
and then it maps to its resolution; failing identifiers never appear.
The empty input yields the empty dictionary with zero workers started,
the worker count is bounded by `min(10, len(ids))`, and for an input
list of **distinct** identifiers with `k` unresolvable ones the result
has exactly `len(ids) - k` entries. -/
theorem resolve_batch_spec (f : String → Option String) (ids : List String) :
    (resolve_batch f [] = [] ∧ batch_workers [] = 0) ∧
    (∀ vid : String, (resolve_batch f ids).lookup vid =
        if vid ∈ ids then f vid else none) ∧
    batch_workers ids ≤ min 10 ids.length ∧
    (ids.Nodup →
      (resolve_batch f ids).length =
        ids.length - (ids.filter (fun v => (f v).isNone)).length) := by
  refine ⟨⟨rfl, rfl⟩, ?_, ?_, ?_⟩
  · intro vid
    unfold resolve_batch
    cases ids with
    | nil => simp
    | cons v rest =>
      rw [if_neg (by simp), foldl_batchStep_lookup]
      by_cases hmem : vid ∈ v :: rest
      · simp only [hmem, if_true]
        cases hf : f vid <;> simp [hf]
      · simp [hmem]
  · unfold batch_workers
    cases ids <;> simp
  · intro hnd
    unfold resolve_batch
    cases hids : ids with
    | nil => simp
    | cons v rest =>
      rw [if_neg (by simp)]
      rw [foldl_batchStep_length f (v :: rest) [] (hids ▸ hnd) (by simp)]
      have := countP_isSome_add_filter_isNone f (v :: rest)
      simp only [List.length_nil, Nat.zero_add]
      omega

/-- Witness for the amended C5 theorem: two distinct identifiers, one of
which fails to resolve, yield a one-entry dictionary. -/
theorem resolve_batch_spec_witness :
    ((resolve_batch (fun v => if v == "a" then some ("u") else none)
        ["a", "b"]).lookup "a" =
      (if ("a" : String) ∈ (["a", "b"] : List String) then
        (fun v : String => if v == "a" then some ("u") else none) "a"
       else none)) ∧
    (resolve_batch (fun v => if v == "a" then some ("u") else none)
        ["a", "b"]).length =
      (["a", "b"] : List String).length -
        ((["a", "b"] : List String).filter
          (fun v => ((fun w : String =>
            if w == "a" then some ("u") else none) v).isNone)).length :=
  ⟨(resolve_batch_spec (fun v => if v == "a" then some ("u") else none)
      ["a", "b"]).2.1 "a",
   (resolve_batch_spec (fun v => if v == "a" then some ("u") else none)
      ["a", "b"]).2.2.2 (by decide)⟩

/-! ## `icy_proxy.py`: validation, expiry, refresh, and the request handler -/

/-- Character class of `VIDEO_ID_PATTERN = ^[a-zA-Z0-9_-]{11}$`. -/
def isVideoIdChar (c : Char) : Bool :=
  ('a' ≤ c && c ≤ 'z') || ('A' ≤ c && c ≤ 'Z') || ('0' ≤ c && c ≤ '9') ||
    c == '_' || c == '-'

/-- Test `VIDEO_ID_PATTERN.match(video_id)`.  `re.match` anchors at the
start, and Python's `$` matches at the end of the string **or before a
newline that ends the string**, so the pattern accepts exactly 11
characters of the restricted alphabet, optionally followed by one final
newline (`'aaaaaaaaaaa\n'` matches; a second newline, a short id, or a
12th alphabet character do not). -/
def videoIdValid (s : String) : Bool :=
  (s.data.take 11).length == 11 && (s.data.take 11).all isVideoIdChar &&
    (s.data.drop 11 == [] || s.data.drop 11 == ['\n'])

/-- Constant `URL_EXPIRY_HOURS` of `icy_proxy.py`. -/
def URL_EXPIRY_HOURS : Int := 5

/-- Method `ICYProxyServer._is_url_expired` at whole-second instants:
`age_seconds / 3600 > expiry_hours` multiplied through by the positive
constant 3600 (see `is_url_expired_eq_div` for the division form). -/
def is_url_expired (now updated_at expiry_hours : Int) : Bool :=
  decide (now - updated_at > expiry_hours * 3600)

/-- Division form of the expiry test exactly as the source writes it,
over exact arithmetic. -/
def is_url_expired_div (now updated_at expiry_hours : ℚ) : Bool :=
  decide ((now - updated_at) / 3600 > expiry_hours)

/-- Faithfulness bridge: the integer expiry test agrees with the
source's division form. -/
theorem is_url_expired_eq_div (now updated_at expiry_hours : Int) :
    is_url_expired now updated_at expiry_hours =
      is_url_expired_div (now : ℚ) (updated_at : ℚ) (expiry_hours : ℚ) := by
  unfold is_url_expired is_url_expired_div
  rw [decide_eq_decide]
  rw [gt_iff_lt, gt_iff_lt, lt_div_iff₀ (by norm_num : (0 : ℚ) < 3600)]
  exact_mod_cast Iff.rfl

/-- Record of the external metadata store (`TrackStore` row): a nullable
stream URL, its update timestamp (Unix seconds), and display metadata. -/
structure Track where
  stream_url : Option String
  updated_at : Int
  artist : Option String
  title : String
deriving DecidableEq

/-- Method `TrackStore.update_stream_url`: sets `stream_url` and
`updated_at = time.time()` on the matching row; a no-op when the
identifier is unknown. -/
def update_stream_url (store : List (String × Track)) (vid url : String)
    (now : Int) : List (String × Track) :=
  store.map (fun p =>
    if p.1 == vid then
      (p.1, { p.2 with stream_url := some url, updated_at := now })
    else p)

/-- Method `ICYProxyServer._refresh_stream_url`, collapsed to its result:
`none` models a raised `URLRefreshError` (no resolver configured, or
`resolve_video_id` returned no URL — any exception is re-wrapped into
`URLRefreshError` as well); `some url` is a successful refresh. -/
def refresh_stream_url (configured : Bool) (resolved : Option String) :
    Option String :=
  if configured then
    match resolved with
    | some url => some url
    | none => none
  else none

/-- State of an `ICYProxyServer` instance read by the handler: the
metadata store, the shared connection counter `_active_connections`, and
the configured `max_concurrent_streams`. -/
structure ICYProxyServer where
  store : List (String × Track)
  active_connections : Int
  max_concurrent_streams : Int
deriving DecidableEq

/-- Responses `_handle_proxy_request` can produce (returned redirect or
raised `aiohttp` HTTP exception). -/
inductive ProxyResponse where
  | badRequest
  | serviceUnavailable
  | notFound
  | badGateway
  | internalError
  | temporaryRedirect (location : String)
deriving DecidableEq

/-- HTTP status code of each response. -/
def ProxyResponse.statusCode : ProxyResponse → Nat
  | .badRequest => 400
  | .serviceUnavailable => 503
  | .notFound => 404
  | .badGateway => 502
  | .internalError => 500
  | .temporaryRedirect _ => 307

/-- Observable trace of one `_handle_proxy_request` call: the response,
the store after the call, whether the request was admitted (counter
incremented), the counter while the request held its slot, the counter
after the `finally` block, how many `get_track` lookups ran, and how many
warnings were logged. -/
structure HandlerTrace where
  response : ProxyResponse
  store : List (String × Track)
  admitted : Bool
  peak_connections : Int
  final_connections : Int
  store_lookups : Nat
  warnings : Nat
deriving DecidableEq

/-- Method `ICYProxyServer._handle_proxy_request`.  Control flow of the
source: validate the id (400 before anything else), test-and-increment
the connection counter under its lock (503 at capacity, without
incrementing), then inside `try`: look the track up (404 when absent),
resolve on demand when the stored URL is null (502 on failure), refresh
when it is expired (warn and fall back to the stale URL on failure), and
redirect (307); the `finally` block decrements the counter on every exit
path.  Oracles: `configured`/`resolved` determine `_refresh_stream_url`,
and `unexpected` models an unexpected exception out of the store lookup,
exercising the generic `except Exception` → 500 path. -/
def handle_proxy_request (p : ICYProxyServer) (now : Int) (video_id : String)
    (configured : Bool) (resolved : Option String) (unexpected : Bool) :
    HandlerTrace :=
  if !(videoIdValid video_id) then
    ⟨.badRequest, p.store, false, p.active_connections, p.active_connections,
      0, 1⟩
  else if p.active_connections ≥ p.max_concurrent_streams then
    ⟨.serviceUnavailable, p.store, false, p.active_connections,
      p.active_connections, 0, 1⟩
  else
    let incremented := p.active_connections + 1
    let body : ProxyResponse × List (String × Track) × Nat × Nat :=
      if unexpected then (.internalError, p.store, 0, 0)
      else
        match p.store.lookup video_id with
        | none => (.notFound, p.store, 1, 1)
        | some track =>
          match track.stream_url with
          | none =>
            match refresh_stream_url configured resolved with
            | some url =>
                (.temporaryRedirect url,
                  update_stream_url p.store video_id url now, 1, 0)
            | none => (.badGateway, p.store, 1, 0)
          | some old_url =>
            if is_url_expired now track.updated_at URL_EXPIRY_HOURS then
              match refresh_stream_url configured resolved with
              | some url =>
                  (.temporaryRedirect url,
                    update_stream_url p.store video_id url now, 1, 0)
              | none => (.temporaryRedirect old_url, p.store, 1, 1)
            else (.temporaryRedirect old_url, p.store, 1, 0)
    ⟨body.1, body.2.1, true, incremented, incremented - 1, body.2.2.1,
      body.2.2.2⟩

/-! ## Admission control as a transition system

One proxy instance serves many requests; the shared counter is mutated
only inside the two `async with self._connection_lock` blocks, so the
interleaving of requests is an interleaving of these atomic blocks.  A
state is the multiset (list) of request ids currently admitted and not
yet released; `_active_connections` equals its size by construction —
each admitted request increments once and its `finally` block decrements
once, which the handler-level theorem `connection_counter_discipline`
establishes for every exit path. -/

/-- Atomic counter transitions: a request is admitted when the counter is
below `max` (increment), rejected at capacity (no change), or releases
its previously admitted slot (decrement in `finally`). -/
inductive ConnStep (max : Int) : List Nat → List Nat → Prop
  | acquire (rid : Nat) (s : List Nat) :
      (s.length : Int) < max → ConnStep max s (rid :: s)
  | reject (s : List Nat) :
      max ≤ (s.length : Int) → ConnStep max s s
  | release (rid : Nat) (s : List Nat) :
      rid ∈ s → ConnStep max s (s.erase rid)

/-- States reachable from the initial state (counter 0, no request
admitted). -/
inductive ConnReachable (max : Int) : List Nat → Prop
  | init : ConnReachable max []
  | next {s t : List Nat} :
      ConnReachable max s → ConnStep max s t → ConnReachable max t

theorem connReachable_length_le (max : Int) (s : List Nat)
    (hmax : 0 ≤ max) (h : ConnReachable max s) : (s.length : Int) ≤ max := by
  induction h with
  | init => simpa using hmax
  | @next u t hr hstep ih =>
    cases hstep with
    | acquire rid _ hlt => simp only [List.length_cons]; push_cast; omega
    | reject _ hge => exact ih
    | release rid _ hmem =>
      have hle : (u.erase rid).length ≤ u.length :=
        (List.erase_sublist rid u).length_le
      push_cast at ih ⊢
      omega

/-- C2: the connection counter stays within `0 ≤ count ≤ maxConcurrent`
in every reachable state of the admission transition system, and the
handler observes the admission discipline: with the counter at or above
capacity a (well-formed) request is rejected with 503 without
incrementing, and an admitted request raises the counter by exactly one
and lowers it by exactly one in `finally` on every exit path — for every
oracle outcome the final counter equals the initial one. -/
theorem connection_counter_discipline :
    (∀ (max : Int) (s : List Nat), 0 ≤ max → ConnReachable max s →
      (0 : Int) ≤ (s.length : Int) ∧ (s.length : Int) ≤ max) ∧
    (∀ (p : ICYProxyServer) (now : Int) (vid : String) (configured : Bool)
        (resolved : Option String) (unexpected : Bool),
      videoIdValid vid = true →
      p.active_connections ≥ p.max_concurrent_streams →
      (handle_proxy_request p now vid configured resolved unexpected).response
          = .serviceUnavailable ∧
      (handle_proxy_request p now vid configured resolved
          unexpected).admitted = false ∧
      (handle_proxy_request p now vid configured resolved
          unexpected).final_connections = p.active_connections) ∧
    (∀ (p : ICYProxyServer) (now : Int) (vid : String) (configured : Bool)
        (resolved : Option String) (unexpected : Bool),
      videoIdValid vid = true →
      p.active_connections < p.max_concurrent_streams →
      (handle_proxy_request p now vid configured resolved
          unexpected).admitted = true ∧
      (handle_proxy_request p now vid configured resolved
          unexpected).peak_connections = p.active_connections + 1 ∧
      (handle_proxy_request p now vid configured resolved
          unexpected).final_connections = p.active_connections) := by
  refine ⟨?_, ?_, ?_⟩
  · intro max s hmax hreach
    exact ⟨by positivity, connReachable_length_le max s hmax hreach⟩
  · intro p now vid configured resolved unexpected hval hcap
    simp [handle_proxy_request, hval, hcap]
  · intro p now vid configured resolved unexpected hval hcap
    simp [handle_proxy_request, hval, not_le.mpr hcap]

/-- Witness for C2: the reachable state after one admission against
`max = 1` satisfies the invariant, a second request at capacity is
rejected, and an admitted request restores the counter. -/
theorem connection_counter_discipline_witness :
    ((0 : Int) ≤ (([0] : List Nat).length : Int) ∧
      (([0] : List Nat).length : Int) ≤ 1) ∧
    ((handle_proxy_request ⟨[], 1, 1⟩ 0 "aaaaaaaaaaa" false none
        false).response = .serviceUnavailable) ∧
    ((handle_proxy_request ⟨[], 0, 1⟩ 0 "aaaaaaaaaaa" false none
        false).final_connections = 0) :=
  ⟨connection_counter_discipline.1 1 [0] (by decide)
      (ConnReachable.next ConnReachable.init
        (ConnStep.acquire 0 [] (by decide))),
   (connection_counter_discipline.2.1 ⟨[], 1, 1⟩ 0 "aaaaaaaaaaa" false none
      false (by decide) (by decide)).1,
   (connection_counter_discipline.2.2 ⟨[], 0, 1⟩ 0 "aaaaaaaaaaa" false none
      false (by decide) (by decide)).2.2⟩

/-! ## Per-request claims on the handler -/

/-- C6 (counterexample): the claim's "fixed shape: length 11 over
alphanumeric, `-`, `_`" is not what the program enforces.  The identifier
`"aaaaaaaaaaa\n"` has length 12, so it does not match the claimed shape,
yet `VIDEO_ID_PATTERN.match` accepts it (Python's `$` matches before a
trailing newline): the handler does not respond 400, admits the request,
and performs a store lookup (404 on this empty store). -/
theorem video_id_trailing_newline_counterexample :
    ¬ (("aaaaaaaaaaa\n").data.length == 11 &&
        ("aaaaaaaaaaa\n").data.all isVideoIdChar) = true ∧
    (handle_proxy_request ⟨[], 0, 10⟩ 0 "aaaaaaaaaaa\n" false none
        false).response ≠ .badRequest ∧
    (handle_proxy_request ⟨[], 0, 10⟩ 0 "aaaaaaaaaaa\n" false none
        false).admitted = true ∧
    (handle_proxy_request ⟨[], 0, 10⟩ 0 "aaaaaaaaaaa\n" false none
        false).store_lookups = 1 := by
  decide

/-- C6 (amended): a request whose identifier fails `VIDEO_ID_PATTERN` —
that is, whose identifier is not 11 characters over the restricted
alphabet optionally followed by a single trailing newline (Python's `$`
matches before a final newline) — gets 400, terminates before admission
(counter untouched, not admitted) and before any store lookup, leaving
the store unchanged. -/
theorem invalid_video_id_rejected_before_admission (p : ICYProxyServer)
    (now : Int) (vid : String) (configured : Bool) (resolved : Option String)
    (unexpected : Bool) (h : videoIdValid vid = false) :
    (handle_proxy_request p now vid configured resolved unexpected).response
        = .badRequest ∧
    (handle_proxy_request p now vid configured resolved
        unexpected).response.statusCode = 400 ∧
    (handle_proxy_request p now vid configured resolved unexpected).admitted
        = false ∧
    (handle_proxy_request p now vid configured resolved
        unexpected).final_connections = p.active_connections ∧
    (handle_proxy_request p now vid configured resolved
        unexpected).peak_connections = p.active_connections ∧
    (handle_proxy_request p now vid configured resolved
        unexpected).store_lookups = 0 ∧
    (handle_proxy_request p now vid configured resolved unexpected).store
        = p.store := by
  simp [handle_proxy_request, h, ProxyResponse.statusCode]

/-- Witness for C6 at a 10-character identifier. -/
theorem invalid_video_id_rejected_before_admission_witness :
    (handle_proxy_request ⟨[], 0, 10⟩ 0 "aaaaaaaaaa" false none
        false).response = .badRequest ∧
    (handle_proxy_request ⟨[], 0, 10⟩ 0 "aaaaaaaaaa" false none
        false).store_lookups = 0 :=
  ⟨(invalid_video_id_rejected_before_admission ⟨[], 0, 10⟩ 0 "aaaaaaaaaa"
      false none false (by decide)).1,
   (invalid_video_id_rejected_before_admission ⟨[], 0, 10⟩ 0 "aaaaaaaaaa"
      false none false (by decide)).2.2.2.2.2.1⟩

/-- C4: a known identifier whose stored URL is null and whose on-demand
resolution fails yields 502 and leaves the store unchanged — no URL or
timestamp is written. -/
theorem null_url_failed_resolution_bad_gateway (p : ICYProxyServer)
    (now : Int) (vid : String) (configured : Bool) (resolved : Option String)
    (track : Track)
    (hval : videoIdValid vid = true)
    (hcap : p.active_connections < p.max_concurrent_streams)
    (htrack : p.store.lookup vid = some track)
    (hnull : track.stream_url = none)
    (hfail : refresh_stream_url configured resolved = none) :
    (handle_proxy_request p now vid configured resolved false).response
        = .badGateway ∧
    (handle_proxy_request p now vid configured resolved
        false).response.statusCode = 502 ∧
    (handle_proxy_request p now vid configured resolved false).store
        = p.store := by
  simp [handle_proxy_request, hval, not_le.mpr hcap, htrack, hnull, hfail,
    ProxyResponse.statusCode]

/-- Witness for C4 on a one-row store with a never-resolved track. -/
theorem null_url_failed_resolution_bad_gateway_witness :
    (handle_proxy_request
        ⟨[("aaaaaaaaaaa", ⟨none, 0, none, "t"⟩)], 0, 10⟩ 0 "aaaaaaaaaaa"
        false none false).response = .badGateway ∧
    (handle_proxy_request
        ⟨[("aaaaaaaaaaa", ⟨none, 0, none, "t"⟩)], 0, 10⟩ 0 "aaaaaaaaaaa"
        false none false).store
      = [("aaaaaaaaaaa", ⟨none, 0, none, "t"⟩)] :=
  ⟨(null_url_failed_resolution_bad_gateway
      ⟨[("aaaaaaaaaaa", ⟨none, 0, none, "t"⟩)], 0, 10⟩ 0 "aaaaaaaaaaa"
      false none ⟨none, 0, none, "t"⟩ (by decide) (by decide) (by decide)
      (by decide) (by decide)).1,
   (null_url_failed_resolution_bad_gateway
      ⟨[("aaaaaaaaaaa", ⟨none, 0, none, "t"⟩)], 0, 10⟩ 0 "aaaaaaaaaaa"
      false none ⟨none, 0, none, "t"⟩ (by decide) (by decide) (by decide)
      (by decide) (by decide)).2.2⟩

/-- C3: a known identifier whose stored URL is non-null but expired and
whose refresh fails is **not** aborted: the response is a 307 redirect to
the old (stale) stored URL, the store is left unchanged, and a warning is
logged. -/
theorem expired_url_failed_refresh_falls_back (p : ICYProxyServer)
    (now : Int) (vid : String) (configured : Bool) (resolved : Option String)
    (track : Track) (old_url : String)
    (hval : videoIdValid vid = true)
    (hcap : p.active_connections < p.max_concurrent_streams)
    (htrack : p.store.lookup vid = some track)
    (hurl : track.stream_url = some old_url)
    (hexp : is_url_expired now track.updated_at URL_EXPIRY_HOURS = true)
    (hfail : refresh_stream_url configured resolved = none) :
    (handle_proxy_request p now vid configured resolved false).response
        = .temporaryRedirect old_url ∧
    (handle_proxy_request p now vid configured resolved
        false).response.statusCode = 307 ∧
    (handle_proxy_request p now vid configured resolved false).store
        = p.store ∧
    1 ≤ (handle_proxy_request p now vid configured resolved
        false).warnings := by
  simp [handle_proxy_request, hval, not_le.mpr hcap, htrack, hurl, hexp,
    hfail, ProxyResponse.statusCode]

/-- Witness for C3: a URL stored six hours ago (TTL 5h), refresh failing. -/
theorem expired_url_failed_refresh_falls_back_witness :
    (handle_proxy_request
        ⟨[("aaaaaaaaaaa", ⟨some ("old"), 0, none, "t"⟩)], 0, 10⟩ 21600
        "aaaaaaaaaaa" false none false).response
      = .temporaryRedirect "old" ∧
    (handle_proxy_request
        ⟨[("aaaaaaaaaaa", ⟨some ("old"), 0, none, "t"⟩)], 0, 10⟩ 21600
        "aaaaaaaaaaa" false none false).store
      = [("aaaaaaaaaaa", ⟨some ("old"), 0, none, "t"⟩)] :=
  ⟨(expired_url_failed_refresh_falls_back
      ⟨[("aaaaaaaaaaa", ⟨some ("old"), 0, none, "t"⟩)], 0, 10⟩ 21600
      "aaaaaaaaaaa" false none ⟨some ("old"), 0, none, "t"⟩ "old"
      (by decide) (by decide) (by decide) (by decide) (by decide)
      (by decide)).1,
   (expired_url_failed_refresh_falls_back
      ⟨[("aaaaaaaaaaa", ⟨some ("old"), 0, none, "t"⟩)], 0, 10⟩ 21600
      "aaaaaaaaaaa" false none ⟨some ("old"), 0, none, "t"⟩ "old"
      (by decide) (by decide) (by decide) (by decide) (by decide)
      (by decide)).2.2.1⟩

/-- C9: there is no request-level timeout in the handler's resolution
path — the executor call in `_refresh_stream_url` is awaited without a
timeout, and no branch of `_handle_proxy_request` produces a 504: every
response it can return or raise has status 400, 503, 404, 502, 500 or
307.  (A `TimeoutError` raised inside the body would be swallowed by the
generic `except Exception` into 500 — the oracle `unexpected` exercises
that path — and a resolution that never returns blocks the request
forever.) -/
theorem handler_status_never_gateway_timeout (p : ICYProxyServer)
    (now : Int) (vid : String) (configured : Bool) (resolved : Option String)
    (unexpected : Bool) :
    (handle_proxy_request p now vid configured resolved
        unexpected).response.statusCode ≠ 504 ∧
    (handle_proxy_request p now vid configured resolved
        unexpected).response.statusCode ∈
      ([400, 503, 404, 502, 500, 307] : List Nat) := by
  cases hresp : (handle_proxy_request p now vid configured resolved
      unexpected).response <;> simp [ProxyResponse.statusCode]

end Ytmpd
